import Mathlib

/-!
Shallow embedding of the eKeys keyframe-animation engine, from two source
files of the repository:

* `src/eKeys.jsx` — the one-shot entry point `eKeys.animate(inputKeyframes,
  options)`: validate and sort the keyframes, then evaluate at the given time
  (embedded in namespace `EKeys`).
* `src/unnamed/part_000` — the construction-plus-repeated-query entry point
  `AnimGroup(inputKeyframes)` returning `{ anim(time) }` (embedded in
  namespace `AnimGroup`).

JavaScript numbers are modelled as exact rationals (`ℚ`); the claims under
study only exercise arithmetic that is exact in binary floating point as
well (comparisons, linear interpolation at dyadic progress values), or pure
control flow.  `undefined` results are modelled with `Option`, and thrown
`Error`/`TypeError` exceptions with `Except String`, carrying the exact
message text built by the source.  JS `null` is not distinguished from
`undefined` (no claim passes `null`).  The Float32Array rounding of the
bezier sample table is not modelled (no claim depends on sampled values).
-/

/-- Runtime value of a keyframe field as seen by the source's `getType`
utility: a number, an array of numbers, or some other value identified by
its `getType` name (e.g. "string", "boolean"). -/
inductive JSVal where
  | num : ℚ → JSVal
  | arr : List ℚ → JSVal
  | other : String → JSVal
deriving DecidableEq, Repr

/-- The source's `getType`: `Object.prototype.toString`-based precise type
name, lowercased ("number", "array", ...). -/
def getType : JSVal → String
  | .num _ => "number"
  | .arr _ => "array"
  | .other s => s

/-- `Array.isArray` on a keyframe value. -/
def isArr : JSVal → Bool
  | .arr _ => true
  | _ => false

/-- `typeof v === 'number'` on a keyframe value. -/
def isNum : JSVal → Bool
  | .num _ => true
  | _ => false

/-- A validated keyframe, as built by `validateKeyframe` in both sources:
`keyTime` and `keyValue` are present and type-checked, the four easing
fields have their defaults (33, 33, 0, 0) filled in. -/
structure Keyframe where
  keyTime : ℚ
  keyValue : JSVal
  easeIn : ℚ
  easeOut : ℚ
  velocityIn : ℚ
  velocityOut : ℚ
deriving DecidableEq, Repr

/-- A raw keyframe descriptor as passed by the caller: each recognized
property is either absent (`none`, JS `undefined`) or present with some
runtime value; `extraProps` lists the names of any own properties outside
the recognized set, in enumeration order (the `...nonValidKeyProps` rest of
the destructuring in `src/eKeys.jsx`). -/
structure RawKey where
  keyTime : Option JSVal
  keyValue : Option JSVal
  easeIn : Option JSVal
  easeOut : Option JSVal
  velocityIn : Option JSVal
  velocityOut : Option JSVal
  extraProps : List String
deriving DecidableEq, Repr

/-- Error message template for a missing required argument
(`requiredArgumentError` in both sources):
`` `${variableName} is required in ${functionName}` ``. -/
def requiredArgumentError (variableName functionName : String) : String :=
  variableName ++ " is required in " ++ functionName

/-- Error message template for an incorrect type (`typeErrorMessage` in both
sources): `` `${variableName} must be of type ${expectedType}. Received
${receivedType}` ``.  When the source interpolates an array of expected
types, JS joins it with a bare comma, e.g. "number,array". -/
def typeErrorMessage (variableName expectedType receivedType : String) : String :=
  variableName ++ " must be of type " ++ expectedType ++ ". Received " ++ receivedType

/-! ## The cubic-Bezier easing solver (`bezier` in both sources, identical) -/

/-- `A = 1 - 3*aA2 + 3*aA1`. -/
def bezA (aA1 aA2 : ℚ) : ℚ := 1 - 3 * aA2 + 3 * aA1

/-- `B = 3*aA2 - 6*aA1`. -/
def bezB (aA1 aA2 : ℚ) : ℚ := 3 * aA2 - 6 * aA1

/-- `C = 3*aA1`. -/
def bezC (aA1 : ℚ) : ℚ := 3 * aA1

/-- `calcBezier`: x(t) given t, x1, x2 (or y(t) given t, y1, y2):
`((A*t + B)*t + C)*t`. -/
def calcBezier (aT aA1 aA2 : ℚ) : ℚ :=
  ((bezA aA1 aA2 * aT + bezB aA1 aA2) * aT + bezC aA1) * aT

/-- `getSlope`: dx/dt = `3*A*t^2 + 2*B*t + C`. -/
def getSlope (aT aA1 aA2 : ℚ) : ℚ :=
  3 * bezA aA1 aA2 * aT * aT + 2 * bezB aA1 aA2 * aT + bezC aA1

/-- `Math.min` on two numbers (an explicit comparison, so that concrete
evaluations reduce inside the kernel). -/
def jsMin (a b : ℚ) : ℚ := if a ≤ b then a else b

/-- `Math.max` on two numbers. -/
def jsMax (a b : ℚ) : ℚ := if a ≤ b then b else a

/-- `Math.abs` on a number. -/
def jsAbs (a : ℚ) : ℚ := if a < 0 then -a else a

/-- `SUBDIVISION_PRECISION = 0.0000001`. -/
def subdivisionPrecision : ℚ := 1 / 10000000

/-- `NEWTON_MIN_SLOPE = 0.001`. -/
def newtonMinSlope : ℚ := 1 / 1000

/-- `kSampleStepSize = 1 / (kSplineTableSize - 1) = 0.1`. -/
def kSampleStepSize : ℚ := 1 / 10

/-- `binarySubdivide`: do-while bisection, at most 10 body executions
(`SUBDIVISION_MAX_ITERATIONS`); `fuel` counts the remaining *additional*
iterations, so the entry point passes 9. -/
def binarySubdivideAux (aX mX1 mX2 : ℚ) : Nat → ℚ → ℚ → ℚ
  | fuel, aA, aB =>
    let currentT := aA + (aB - aA) / 2
    let currentX := calcBezier currentT mX1 mX2 - aX
    match fuel with
    | 0 => currentT
    | fuel + 1 =>
      if jsAbs currentX > subdivisionPrecision then
        if currentX > 0 then binarySubdivideAux aX mX1 mX2 fuel aA currentT
        else binarySubdivideAux aX mX1 mX2 fuel currentT aB
      else currentT

/-- `newtonRaphsonIterate`: `NEWTON_ITERATIONS = 4` refinement steps,
abandoning early when the slope is exactly 0. -/
def newtonRaphsonIterate (aX mX1 mX2 : ℚ) : Nat → ℚ → ℚ
  | 0, aGuessT => aGuessT
  | n + 1, aGuessT =>
    let currentSlope := getSlope aGuessT mX1 mX2
    if currentSlope = 0 then aGuessT
    else
      let currentX := calcBezier aGuessT mX1 mX2 - aX
      newtonRaphsonIterate aX mX1 mX2 n (aGuessT - currentX / currentSlope)

/-- The precomputed 11-entry sample table `sampleValues[i] =
calcBezier(i * kSampleStepSize, mX1, mX2)` for i = 0..10. -/
def sampleValues (mX1 mX2 : ℚ) : List ℚ :=
  (List.range 11).map fun i => calcBezier (i * kSampleStepSize) mX1 mX2

/-- `getTForX`: walk the sample table from index 1 while the sample is
`≤ aX` (stopping at the last index 10), linearly interpolate an initial
guess inside the bracketing interval, then refine by Newton-Raphson or
bisection depending on the local slope.  The walk is the length of the
`takeWhile` run over indices 1..9, matching the source's for-loop bound
`currentSample !== lastSample`. -/
def getTForX (mX1 mX2 aX : ℚ) : ℚ :=
  let samples := sampleValues mX1 mX2
  let n := (((List.range 9).map fun j => j + 1).takeWhile
    fun j => samples.getD j 0 ≤ aX).length
  let intervalStart : ℚ := n * kSampleStepSize
  let dist := (aX - samples.getD n 0) / (samples.getD (n + 1) 0 - samples.getD n 0)
  let guessForT := intervalStart + dist * kSampleStepSize
  let initialSlope := getSlope guessForT mX1 mX2
  if initialSlope ≥ newtonMinSlope then newtonRaphsonIterate aX mX1 mX2 4 guessForT
  else if initialSlope = 0 then guessForT
  else binarySubdivideAux aX mX1 mX2 9 intervalStart (intervalStart + kSampleStepSize)

/-- `bezier(mX1, mY1, mX2, mY2)`: throws when an x handle leaves [0, 1];
returns `LinearEasing` when `mX1 === mY1 && mX2 === mY2`; otherwise returns
`bezierEasing`, which returns 0 and 1 exactly at the endpoints and solves
for t in between. -/
def bezier (mX1 mY1 mX2 mY2 : ℚ) : Except String (ℚ → ℚ) :=
  if ¬(0 ≤ mX1 ∧ mX1 ≤ 1 ∧ 0 ≤ mX2 ∧ mX2 ≤ 1) then
    .error "bezier x values must be in [0, 1] range"
  else if mX1 = mY1 ∧ mX2 = mY2 then
    .ok fun x => x
  else
    .ok fun x =>
      if x = 0 then 0
      else if x = 1 then 1
      else calcBezier (getTForX mX1 mX2 x) mY1 mY2

/-! ## Shared evaluation pieces -/

/-- The `getCurrentKeyNum` loop of both sources: starting at 0, increment
the index while a next keyframe exists and `time >= keys[cur + 1].keyTime`. -/
def scanKeyNum : List Keyframe → ℚ → Nat
  | _ :: k2 :: rest, time =>
    if k2.keyTime ≤ time then scanKeyNum (k2 :: rest) time + 1 else 0
  | _, _ => 0

/-- Stable sort by ascending `keyTime`, modelling
`.sort((a, b) => a.keyTime - b.keyTime)` (JS `Array.prototype.sort` is
stable): insert each key before the first strictly-later key. -/
def insertKey (k : Keyframe) : List Keyframe → List Keyframe
  | [] => [k]
  | y :: ys => if y.keyTime < k.keyTime then y :: insertKey k ys else k :: y :: ys

/-- Stable insertion sort over a keyframe list by `keyTime`. -/
def sortKeys : List Keyframe → List Keyframe
  | [] => []
  | k :: ks => insertKey k (sortKeys ks)

/-! ## `src/eKeys.jsx` — the one-shot `eKeys.animate` entry point -/

namespace EKeys

/-- JS strict equality (`===`) between two `keyValue`s, as used by the
skip-interpolation shortcut `curKey.keyValue === nextKey.keyValue`: numbers
compare by value; arrays are objects compared by reference, and the two
bracketing keyframes hold distinct array objects, so array comparisons are
`false` (other shapes cannot both survive validation). -/
def strictEq : JSVal → JSVal → Bool
  | .num a, .num b => a = b
  | _, _ => false

/-- The `UnknownField` message of `validateKeyframe` (lines 243-247):
`` `Unexpected property on keyframe ${index}: ${names.join(', ')}` `` with a
hint appended for an extra property literally named `time` or `value`. -/
def unexpectedPropertyMessage (index : Nat) (names : List String) : String :=
  "Unexpected property on keyframe " ++ toString index ++ ": "
    ++ String.intercalate ", " names
    ++ (if names.contains "time" then ". Did you mean \"keyTime\"?" else "")
    ++ (if names.contains "value" then ". Did you mean \"keyValue\"?" else "")

/-- `validateKeyframe(key, index)` of `src/eKeys.jsx` (lines 239-276):
rejects unexpected extra properties; then checks the required fields,
reporting a missing `keyTime` with the string `'keyValue'` — the source
passes `'keyValue'` to `requiredArgumentError` inside the
`keyTime == null` guard (line 252); then runs `checkTypes` over the six
fields in order (the nested matches fuse the source's `checkTypes` loop
with field extraction, preserving check order and messages; defaults
33/33/0/0 were already filled in by the destructuring). -/
def validateKeyframe (key : RawKey) (index : Nat) : Except String Keyframe :=
  let easeInV := key.easeIn.getD (.num 33)
  let easeOutV := key.easeOut.getD (.num 33)
  let velocityInV := key.velocityIn.getD (.num 0)
  let velocityOutV := key.velocityOut.getD (.num 0)
  if key.extraProps ≠ [] then
    .error (unexpectedPropertyMessage index key.extraProps)
  else
    match key.keyTime with
    | none => .error (requiredArgumentError "keyValue" ("keyframe " ++ toString index))
    | some keyTimeV =>
      match key.keyValue with
      | none => .error (requiredArgumentError "keyValue" ("keyframe " ++ toString index))
      | some keyValueV =>
        match keyTimeV with
        | .num keyTime =>
          if isNum keyValueV || isArr keyValueV then
            match easeInV with
            | .num easeIn =>
              match easeOutV with
              | .num easeOut =>
                match velocityInV with
                | .num velocityIn =>
                  match velocityOutV with
                  | .num velocityOut =>
                    .ok ⟨keyTime, keyValueV, easeIn, easeOut, velocityIn, velocityOut⟩
                  | v => .error (typeErrorMessage
                      ("Keyframe " ++ toString index ++ " velocityOut") "number" (getType v))
                | v => .error (typeErrorMessage
                    ("Keyframe " ++ toString index ++ " velocityIn") "number" (getType v))
              | v => .error (typeErrorMessage
                  ("Keyframe " ++ toString index ++ " easeOut") "number" (getType v))
            | v => .error (typeErrorMessage
                ("Keyframe " ++ toString index ++ " easeIn") "number" (getType v))
          else .error (typeErrorMessage
              ("Keyframe " ++ toString index ++ " value") "number,array" (getType keyValueV))
        | v => .error (typeErrorMessage
            ("Keyframe " ++ toString index ++ " time") "number" (getType v))

/-- `.map((key, index) => validateKeyframe(key, index))` with exception
propagation: validate each raw keyframe in order, the first thrown error
aborting the whole evaluation. -/
def validateAll : List RawKey → Nat → Except String (List Keyframe)
  | [], _ => .ok []
  | k :: ks, index => do
    let v ← validateKeyframe k index
    let rest ← validateAll ks (index + 1)
    .ok (v :: rest)

/-- The `DimensionMismatch` message of `animateArrayFromProgress`
(lines 115-116). -/
def dimensionMessage (curKeyNum : Nat) (startLen endLen : Nat) : String :=
  "Keyframe " ++ toString curKeyNum ++ " and " ++ toString (curKeyNum + 1)
    ++ " values must be of the same dimension. Received "
    ++ toString startLen ++ " and " ++ toString endLen

/-- The `TypeMismatch` message for bracketing keyframes of different value
shapes (lines 100-101). -/
def sameTypeMessage (curKeyNum : Nat) (v w : JSVal) : String :=
  "Keyframe " ++ toString curKeyNum ++ " and " ++ toString (curKeyNum + 1)
    ++ " values must be of the same type. Received "
    ++ getType v ++ " and " ++ getType w

/-- `animateArrayFromProgress(startArray, endArray, progressAmount)`
(lines 112-133): throw on a length mismatch, else interpolate element-wise
(the source maps over `endArray` indexing into `startArray`; the lengths
are equal in that branch, so `zipWith` coincides with it). -/
def animateArrayFromProgress (curKeyNum : Nat) (startArray endArray : List ℚ)
    (progressAmount : ℚ) : Except String JSVal :=
  if startArray.length ≠ endArray.length then
    .error (dimensionMessage curKeyNum startArray.length endArray.length)
  else
    let arrayDelta := List.zipWith (fun curKeyDim nextKeyDim => curKeyDim - nextKeyDim)
      endArray startArray
    let deltaProgressed := arrayDelta.map fun item => item * progressAmount
    .ok (.arr (List.zipWith (fun item delta => item + delta) startArray deltaProgressed))

/-- `animateValueFromProgress(startVal, endVal, progressAmount)`
(lines 135-138): `startVal + (endVal - startVal) * progressAmount`. -/
def animateValueFromProgress (startVal endVal progressAmount : ℚ) : ℚ :=
  startVal + (endVal - startVal) * progressAmount

/-- A caller-supplied custom interpolator, invoked as
`interpolator(linearProgress, curKey.easeOut, nextKey.easeIn)`. -/
def InterpFn : Type := ℚ → ℚ → ℚ → ℚ

/-- `animateBetweenKeys(keys, time)` of `src/eKeys.jsx` (lines 51-236):
boundary clamping, locator loop, skip-interpolation shortcut, exact-hit
check, eased progress (custom interpolator or bezier), then scalar/array
interpolation or the same-type error.  An empty key list is modelled as the
`TypeError` JS throws when reading `keyTime` of `undefined`. -/
def animateBetweenKeys (interpolator : Option InterpFn) :
    List Keyframe → ℚ → Except String JSVal
  | [], _ => .error "TypeError: Cannot read properties of undefined (reading keyTime)"
  | firstKey :: restKeys, time =>
    let keys := firstKey :: restKeys
    let lastKey := keys.getLastD firstKey
    if time ≤ firstKey.keyTime then .ok firstKey.keyValue
    else if lastKey.keyTime ≤ time then .ok lastKey.keyValue
    else
      let curKeyNum := scanKeyNum keys time
      match keys.get? curKeyNum, keys.get? (curKeyNum + 1) with
      | some curKey, some nextKey =>
        if strictEq curKey.keyValue nextKey.keyValue then .ok curKey.keyValue
        else if time = curKey.keyTime then .ok curKey.keyValue
        else
          let movedTime := jsMax (time - curKey.keyTime) 0
          let animationLength := nextKey.keyTime - curKey.keyTime
          let linearProgress := jsMin 1 (movedTime / animationLength)
          let easedResult : Except String ℚ :=
            match interpolator with
            | some f => .ok (f linearProgress curKey.easeOut nextKey.easeIn)
            | none =>
              match bezier (curKey.easeOut / 100) (curKey.velocityOut / 100)
                  (1 - nextKey.easeIn / 100) (1 - nextKey.velocityIn / 100) with
              | .error e => .error e
              | .ok f => .ok (f linearProgress)
          match easedResult with
          | .error e => .error e
          | .ok easedProgress =>
            match curKey.keyValue, nextKey.keyValue with
            | .arr startArray, .arr endArray =>
              animateArrayFromProgress curKeyNum startArray endArray easedProgress
            | .num startVal, .num endVal =>
              .ok (.num (animateValueFromProgress startVal endVal easedProgress))
            | v, w => .error (sameTypeMessage curKeyNum v w)
      | _, _ => .error "TypeError: Cannot read properties of undefined (reading keyValue)"

/-- `eKeys.animate(inputKeyframes, options)` (lines 37-48): the host time
default (`thisLayer.time`) is not modelled — the query time is passed
explicitly; the `checkTypes` calls on the two arguments hold by typing.
Validate and sort the keys, then evaluate. -/
def animate (interpolator : Option InterpFn) (inputKeyframes : List RawKey)
    (inputTime : ℚ) : Except String JSVal := do
  let validKeys ← validateAll inputKeyframes 0
  animateBetweenKeys interpolator (sortKeys validKeys) inputTime

end EKeys

/-! ## `src/unnamed/part_000` — the `AnimGroup` construction-plus-query form -/

namespace AnimGroup

/-- Pretty-printing of a value inside a template literal, used by this
source's `checkTypes` which passes the checked *value* (not a name) as the
`variableName` of `typeErrorMessage` (line 45): JS prints a number plainly
and joins an array with bare commas. -/
def jsDisplay : JSVal → String
  | .num q => toString q
  | .arr l => String.intercalate "," (l.map toString)
  | .other s => s

/-- `validateKeyframe(key, index)` of `src/unnamed/part_000` (lines 52-84):
the destructuring defaults raise `requiredArgumentError` for a missing
`keyTime` or `keyValue` (in that order, correctly naming each field), fill
in 33/33/0/0 for the easing fields, and *ignore* any extra properties — no
unknown-field check exists in this source.  `checkTypes` then checks the
six fields in order (fused with extraction as in `EKeys.validateKeyframe`;
this source's type-error messages interpolate the value itself). -/
def validateKeyframe (key : RawKey) (index : Nat) : Except String Keyframe :=
  match key.keyTime with
  | none => .error (requiredArgumentError "keyTime" ("keyframe " ++ toString index))
  | some keyTimeV =>
    match key.keyValue with
    | none => .error (requiredArgumentError "keyValue" ("keyframe " ++ toString index))
    | some keyValueV =>
      let easeInV := key.easeIn.getD (.num 33)
      let easeOutV := key.easeOut.getD (.num 33)
      let velocityInV := key.velocityIn.getD (.num 0)
      let velocityOutV := key.velocityOut.getD (.num 0)
      match keyTimeV with
      | .num keyTime =>
        if isNum keyValueV || isArr keyValueV then
          match easeInV with
          | .num easeIn =>
            match easeOutV with
            | .num easeOut =>
              match velocityInV with
              | .num velocityIn =>
                match velocityOutV with
                | .num velocityOut =>
                  .ok ⟨keyTime, keyValueV, easeIn, easeOut, velocityIn, velocityOut⟩
                | v => .error (typeErrorMessage (jsDisplay v) "number" (getType v))
              | v => .error (typeErrorMessage (jsDisplay v) "number" (getType v))
            | v => .error (typeErrorMessage (jsDisplay v) "number" (getType v))
          | v => .error (typeErrorMessage (jsDisplay v) "number" (getType v))
        else .error (typeErrorMessage (jsDisplay keyValueV) "number,array" (getType keyValueV))
      | v => .error (typeErrorMessage (jsDisplay v) "number" (getType v))

/-- `.map((key, index) => validateKeyframe(key, index))` with exception
propagation, as in the construction step (lines 87-89). -/
def validateAll : List RawKey → Nat → Except String (List Keyframe)
  | [], _ => .ok []
  | k :: ks, index => do
    let v ← validateKeyframe k index
    let rest ← validateAll ks (index + 1)
    .ok (v :: rest)

/-- JS property access `curKey.value` on a validated keyframe (line 249):
the object built by `validateKeyframe` carries no `value` property, so the
access yields `undefined` for every keyframe. -/
def Keyframe.valueProp (_ : Keyframe) : Option JSVal := none

/-- `anim(time)` — `animateBetweenKeys` of `src/unnamed/part_000`
(lines 222-297), over the validated, sorted `keys` of the enclosing
`AnimGroup`: boundary clamping, locator loop, then the shortcut
`if (curKey.value === nextKey.value) return curKey.value` — which compares
`undefined` with `undefined` and therefore always returns `undefined`
(`Option.none`); the easing/interpolation code below it is kept for
faithfulness but is unreachable.  That tail differs from `eKeys.jsx`: no
exact-hit check, no dimension check (unequal lengths would truncate; the
JS `NaN` padding of the longer `endArray.map` is not modelled, the branch
being unreachable), and a mixed scalar/array pair would throw the JS
`TypeError` of calling `.map` on a number.  A defined result is `some`,
`undefined` is `none`. -/
def animateBetweenKeys : List Keyframe → ℚ → Except String (Option JSVal)
  | [], _ => .error "TypeError: Cannot read properties of undefined (reading keyTime)"
  | firstKey :: restKeys, time =>
    let keys := firstKey :: restKeys
    let lastKey := keys.getLastD firstKey
    if time ≤ firstKey.keyTime then .ok (some firstKey.keyValue)
    else if lastKey.keyTime ≤ time then .ok (some lastKey.keyValue)
    else
      let curKeyNum := scanKeyNum keys time
      match keys.get? curKeyNum, keys.get? (curKeyNum + 1) with
      | some curKey, some nextKey =>
        if Keyframe.valueProp curKey = Keyframe.valueProp nextKey then
          .ok (Keyframe.valueProp curKey)
        else
          match bezier (curKey.easeOut / 100) (curKey.velocityOut / 100)
              (1 - nextKey.easeIn / 100) (1 - nextKey.velocityIn / 100) with
          | .error e => .error e
          | .ok easingCurve =>
            let deltaT := nextKey.keyTime - curKey.keyTime
            let movedTime := jsMax (time - curKey.keyTime) 0
            let timeInput := jsMin 1 (movedTime / deltaT)
            let progress := easingCurve timeInput
            if isArr curKey.keyValue || isArr nextKey.keyValue then
              match curKey.keyValue, nextKey.keyValue with
              | .arr startArray, .arr endArray =>
                let arrayDelta := List.zipWith (fun item startItem => item - startItem)
                  endArray startArray
                let deltaProgressed := arrayDelta.map fun item => item * progress
                .ok (some (.arr (List.zipWith (fun item delta => item + delta)
                  startArray deltaProgressed)))
              | .arr _, _ => .error "TypeError: endArray.map is not a function"
              | _, _ => .error "TypeError: startArray.map is not a function"
            else
              match curKey.keyValue, nextKey.keyValue with
              | .num startVal, .num endVal =>
                .ok (some (.num (startVal + (endVal - startVal) * progress)))
              | _, _ =>
                -- unreachable: validated keyValues are numbers or arrays
                .error "TypeError: arithmetic on non-numeric keyValue"
      | _, _ => .error "TypeError: Cannot read properties of undefined (reading keyValue)"

/-- `AnimGroup(inputKeyframes).anim(time)`: validate and sort once at
construction (lines 87-89), then answer the query. -/
def anim (inputKeyframes : List RawKey) (time : ℚ) : Except String (Option JSVal) := do
  let keys ← validateAll inputKeyframes 0
  animateBetweenKeys (sortKeys keys) time

end AnimGroup

/-- Decidable equality for `Except` results, used to settle concrete
evaluations by `decide`. -/
instance {ε α : Type} [DecidableEq ε] [DecidableEq α] : DecidableEq (Except ε α) := fun a b =>
  match a, b with
  | .ok x, .ok y =>
    if h : x = y then isTrue (by rw [h]) else isFalse (by simp [h])
  | .error e, .error f =>
    if h : e = f then isTrue (by rw [h]) else isFalse (by simp [h])
  | .ok _, .error _ => isFalse (by simp)
  | .error _, .ok _ => isFalse (by simp)

/-! ## Theorems settling the claims -/

/-- Claim C1 (code bug): a raw keyframe `{keyValue: 5}` with `keyTime`
missing is rejected by both validators, but the one-shot source's message
names `keyValue` instead of `keyTime` — `src/eKeys.jsx` line 252 passes
`'keyValue'` to `requiredArgumentError` inside the `keyTime == null` guard
— while the `AnimGroup` source (part_000 line 55) names `keyTime` as the
claim requires. -/
theorem missing_keyTime_message_names_keyValue :
    EKeys.validateKeyframe ⟨none, some (.num 5), none, none, none, none, []⟩ 0
      = .error "keyValue is required in keyframe 0" ∧
    AnimGroup.validateKeyframe ⟨none, some (.num 5), none, none, none, none, []⟩ 0
      = .error "keyTime is required in keyframe 0" :=
  ⟨by decide, by decide⟩

/-- Claim C3 counterexample: with two keyframes sharing `keyTime` 0 and
values 1 and 2 (a valid sequence — the validator enforces no uniqueness of
times), evaluating at time 0, which is ≥ the last key's `keyTime`, returns
the FIRST key's value 1, not the last key's value 2, because the
at-or-before-first check runs first. -/
theorem boundary_tie_counterexample :
    EKeys.animate none [⟨some (.num 0), some (.num 1), none, none, none, none, []⟩,
        ⟨some (.num 0), some (.num 2), none, none, none, none, []⟩] 0
      = .ok (.num 1) ∧ JSVal.num 1 ≠ JSVal.num 2 :=
  ⟨by decide, by decide⟩

/-- Claim C3 (corrected): boundary clamping, in both call shapes.  At
`time ≤ first.keyTime` the first key's value is returned exactly; at
`time ≥ last.keyTime` the last key's value is returned exactly *provided*
`time` is also strictly past the first key's `keyTime` (when every keyTime
is equal the first key wins, as the counterexample shows). -/
theorem boundary_clamp (k0 : Keyframe) (rest : List Keyframe) (t : ℚ)
    (interp : Option EKeys.InterpFn) :
    (t ≤ k0.keyTime →
      EKeys.animateBetweenKeys interp (k0 :: rest) t = .ok k0.keyValue ∧
      AnimGroup.animateBetweenKeys (k0 :: rest) t = .ok (some k0.keyValue)) ∧
    (k0.keyTime < t → ((k0 :: rest).getLastD k0).keyTime ≤ t →
      EKeys.animateBetweenKeys interp (k0 :: rest) t
        = .ok ((k0 :: rest).getLastD k0).keyValue ∧
      AnimGroup.animateBetweenKeys (k0 :: rest) t
        = .ok (some ((k0 :: rest).getLastD k0).keyValue)) := by
  constructor
  · intro h
    constructor
    · simp only [EKeys.animateBetweenKeys]
      rw [if_pos h]
    · simp only [AnimGroup.animateBetweenKeys]
      rw [if_pos h]
  · intro h1 h2
    constructor
    · simp only [EKeys.animateBetweenKeys]
      rw [if_neg (not_le.mpr h1), if_pos h2]
    · simp only [AnimGroup.animateBetweenKeys]
      rw [if_neg (not_le.mpr h1), if_pos h2]

/-- Witness for `boundary_clamp`: two keyframes at times 0 and 10 with
values 1 and 2, queried at -1 and at 100, in both call shapes. -/
theorem boundary_clamp_witness :
    EKeys.animateBetweenKeys none
        [⟨0, .num 1, 33, 33, 0, 0⟩, ⟨10, .num 2, 33, 33, 0, 0⟩] (-1) = .ok (.num 1) ∧
    AnimGroup.animateBetweenKeys
        [⟨0, .num 1, 33, 33, 0, 0⟩, ⟨10, .num 2, 33, 33, 0, 0⟩] (-1) = .ok (some (.num 1)) ∧
    EKeys.animateBetweenKeys none
        [⟨0, .num 1, 33, 33, 0, 0⟩, ⟨10, .num 2, 33, 33, 0, 0⟩] 100 = .ok (.num 2) ∧
    AnimGroup.animateBetweenKeys
        [⟨0, .num 1, 33, 33, 0, 0⟩, ⟨10, .num 2, 33, 33, 0, 0⟩] 100 = .ok (some (.num 2)) := by
  refine ⟨?_, ?_, ?_, ?_⟩
  · exact ((boundary_clamp ⟨0, .num 1, 33, 33, 0, 0⟩ [⟨10, .num 2, 33, 33, 0, 0⟩]
      (-1) none).1 (by decide)).1
  · exact ((boundary_clamp ⟨0, .num 1, 33, 33, 0, 0⟩ [⟨10, .num 2, 33, 33, 0, 0⟩]
      (-1) none).1 (by decide)).2
  · exact ((boundary_clamp ⟨0, .num 1, 33, 33, 0, 0⟩ [⟨10, .num 2, 33, 33, 0, 0⟩]
      100 none).2 (by decide) (by decide)).1
  · exact ((boundary_clamp ⟨0, .num 1, 33, 33, 0, 0⟩ [⟨10, .num 2, 33, 33, 0, 0⟩]
      100 none).2 (by decide) (by decide)).2

/-- Claim C7 counterexample: the `AnimGroup` validator accepts a keyframe
carrying the extra field `foo` and silently ignores it — no unknown-field
check exists in `src/unnamed/part_000`. -/
theorem unknown_field_animgroup_counterexample :
    AnimGroup.validateKeyframe
        ⟨some (.num 0), some (.num 5), none, none, none, none, ["foo"]⟩ 0
      = .ok ⟨0, .num 5, 33, 33, 0, 0⟩ := by decide

/-- Claim C7 (corrected): in the one-shot `eKeys.animate` form, any raw
keyframe carrying a field outside the recognized set is rejected with the
unexpected-property error, whose text appends a hint when an extra field is
literally named `time` or `value`. -/
theorem unknown_field_oneshot (key : RawKey) (index : Nat)
    (h : key.extraProps ≠ []) :
    EKeys.validateKeyframe key index
      = .error (EKeys.unexpectedPropertyMessage index key.extraProps) := by
  simp only [EKeys.validateKeyframe]
  rw [if_pos h]

/-- Witness for `unknown_field_oneshot`: an extra field literally named
`time`, whose error message carries the `keyTime` hint. -/
theorem unknown_field_oneshot_witness :
    EKeys.validateKeyframe
        ⟨some (.num 0), some (.num 5), none, none, none, none, ["time"]⟩ 0
      = .error "Unexpected property on keyframe 0: time. Did you mean \"keyTime\"?" := by
  have h := unknown_field_oneshot
    ⟨some (.num 0), some (.num 5), none, none, none, none, ["time"]⟩ 0 (by decide)
  rw [h]
  decide

/-- Claim C8 (confirmed): with both x handles in [0, 1] and `x1 = y1`,
`x2 = y2`, the easing constructor returns the identity function — the
degenerate `LinearEasing` branch, taken before any spline table is built —
so every eased value equals its input exactly. -/
theorem linear_collapse (x1 y1 x2 y2 : ℚ) (h0 : 0 ≤ x1) (h1 : x1 ≤ 1)
    (h2 : 0 ≤ x2) (h3 : x2 ≤ 1) (hy1 : x1 = y1) (hy2 : x2 = y2) :
    bezier x1 y1 x2 y2 = .ok fun t => t := by
  unfold bezier
  rw [if_neg (not_not_intro ⟨h0, h1, h2, h3⟩), if_pos ⟨hy1, hy2⟩]

/-- Witness for `linear_collapse` at `makeEasing(1/2, 1/2, 1/2, 1/2)`. -/
theorem linear_collapse_witness :
    bezier (1/2) (1/2) (1/2) (1/2) = .ok fun t => t :=
  linear_collapse (1/2) (1/2) (1/2) (1/2)
    (by norm_num) (by norm_num) (by norm_num) (by norm_num) rfl rfl

/-- Claim C9 (confirmed): whenever `x1` or `x2` lies outside [0, 1] (with
`y1`, `y2` unconstrained), `bezier` throws the invalid-range error before
returning any easing function. -/
theorem invalid_range_rejected (x1 y1 x2 y2 : ℚ)
    (h : x1 < 0 ∨ 1 < x1 ∨ x2 < 0 ∨ 1 < x2) :
    bezier x1 y1 x2 y2 = .error "bezier x values must be in [0, 1] range" := by
  have hc : ¬(0 ≤ x1 ∧ x1 ≤ 1 ∧ 0 ≤ x2 ∧ x2 ≤ 1) := by
    rintro ⟨a, b, c, d⟩
    rcases h with h | h | h | h
    exacts [absurd a (not_le.mpr h), absurd b (not_le.mpr h),
      absurd c (not_le.mpr h), absurd d (not_le.mpr h)]
  unfold bezier
  rw [if_pos hc]

/-- Witness for `invalid_range_rejected` at `makeEasing(1.5, 0, 0.5, 1)`. -/
theorem invalid_range_rejected_witness :
    bezier (3/2) 0 (1/2) 1 = .error "bezier x values must be in [0, 1] range" :=
  invalid_range_rejected (3/2) 0 (1/2) 1 (Or.inr (Or.inl (by norm_num)))

/-- The locator loop leaves a next keyframe available whenever the query
time is strictly before the last `keyTime`: reaching the last index would
require stepping past the last key's `keyTime`. -/
theorem scanKeyNum_succ_lt : ∀ (keys : List Keyframe) (t : ℚ) (d : Keyframe),
    2 ≤ keys.length → t < (keys.getLastD d).keyTime →
    scanKeyNum keys t + 1 < keys.length
  | [], _, _, hlen, _ => by simp at hlen
  | [_], _, _, hlen, _ => by simp at hlen
  | k0 :: k1 :: rest, t, d, _, hlast => by
    have hlast' : t < ((k1 :: rest).getLastD k0).keyTime := by
      rwa [List.getLastD_cons] at hlast
    by_cases hk : k1.keyTime ≤ t
    · cases rest with
      | nil =>
        rw [List.getLastD_cons] at hlast'
        exact absurd hk (not_le.mpr hlast')
      | cons r rs =>
        have ih := scanKeyNum_succ_lt (k1 :: r :: rs) t k0 (by simp) hlast'
        rw [scanKeyNum, if_pos hk]
        simpa using Nat.succ_lt_succ ih
    · rw [scanKeyNum, if_neg hk]
      simp

/-- Claim C10 (confirmed): in the `AnimGroup` form, for any validated
keyframe list of length ≥ 2 and any query time strictly between the first
and last `keyTime`, `anim(time)` returns `undefined` (`none`): the
skip-interpolation shortcut compares the nonexistent `value` property of
both bracketing keyframes — `undefined === undefined` is always true — and
returns `curKey.value`, so the easing and interpolation code below it is
unreachable. -/
theorem animgroup_interior_returns_undefined (k0 : Keyframe) (rest : List Keyframe)
    (t : ℚ) (hlen : 2 ≤ (k0 :: rest).length)
    (hfirst : k0.keyTime < t) (hlast : t < ((k0 :: rest).getLastD k0).keyTime) :
    AnimGroup.animateBetweenKeys (k0 :: rest) t = .ok none := by
  have hb := scanKeyNum_succ_lt (k0 :: rest) t k0 hlen hlast
  have hm : scanKeyNum (k0 :: rest) t < (k0 :: rest).length := Nat.lt_of_succ_lt hb
  have hck := List.get?_eq_get hm
  have hnk := List.get?_eq_get hb
  simp only [AnimGroup.animateBetweenKeys]
  rw [if_neg (not_le.mpr hfirst), if_neg (not_le.mpr hlast)]
  rw [hck, hnk]
  simp [AnimGroup.Keyframe.valueProp]

/-- Witness for `animgroup_interior_returns_undefined`: two keyframes at
times 0 and 10, queried at the interior time 5, return `undefined`. -/
theorem animgroup_interior_returns_undefined_witness :
    AnimGroup.animateBetweenKeys
        [⟨0, .num 0, 33, 33, 0, 0⟩, ⟨10, .num 100, 33, 33, 0, 0⟩] 5 = .ok none :=
  animgroup_interior_returns_undefined ⟨0, .num 0, 33, 33, 0, 0⟩
    [⟨10, .num 100, 33, 33, 0, 0⟩] 5 (by decide) (by decide) (by decide)

/-- Claim C2 (code bug): with keyframes at (0, 0) and (10, 100) under
identity easing, the one-shot `eKeys.animate` form returns exactly 50 at
time 5 and exactly 25 at time 2.5 — shown both with an identity custom
interpolator and with easing parameters that collapse the bezier to linear
— but the `AnimGroup` construction-plus-`anim` form returns `undefined` at
both times, because its `curKey.value === nextKey.value` shortcut fires on
the nonexistent `value` property. -/
theorem roundtrip_oneshot_vs_animgroup :
    EKeys.animate (some fun p _ _ => p)
        [⟨some (.num 0), some (.num 0), none, none, none, none, []⟩,
         ⟨some (.num 10), some (.num 100), none, none, none, none, []⟩] 5
      = .ok (.num 50) ∧
    EKeys.animate (some fun p _ _ => p)
        [⟨some (.num 0), some (.num 0), none, none, none, none, []⟩,
         ⟨some (.num 10), some (.num 100), none, none, none, none, []⟩] (5/2)
      = .ok (.num 25) ∧
    EKeys.animate none
        [⟨some (.num 0), some (.num 0), some (.num 0), some (.num 0),
            some (.num 0), some (.num 0), []⟩,
         ⟨some (.num 10), some (.num 100), some (.num 0), some (.num 0),
            some (.num 0), some (.num 0), []⟩] 5
      = .ok (.num 50) ∧
    AnimGroup.anim
        [⟨some (.num 0), some (.num 0), some (.num 0), some (.num 0),
            some (.num 0), some (.num 0), []⟩,
         ⟨some (.num 10), some (.num 100), some (.num 0), some (.num 0),
            some (.num 0), some (.num 0), []⟩] 5
      = .ok none ∧
    AnimGroup.anim
        [⟨some (.num 0), some (.num 0), some (.num 0), some (.num 0),
            some (.num 0), some (.num 0), []⟩,
         ⟨some (.num 10), some (.num 100), some (.num 0), some (.num 0),
            some (.num 0), some (.num 0), []⟩] (5/2)
      = .ok none := by
  refine ⟨?_, ?_, ?_, ?_, ?_⟩ <;>
  norm_num [EKeys.animate, EKeys.validateAll, EKeys.validateKeyframe, sortKeys, insertKey,
    EKeys.animateBetweenKeys, scanKeyNum, EKeys.strictEq, jsMin, jsMax, isNum, isArr,
    EKeys.animateValueFromProgress, bezier, AnimGroup.anim, AnimGroup.validateAll,
    AnimGroup.validateKeyframe, AnimGroup.animateBetweenKeys, AnimGroup.Keyframe.valueProp,
    bind, Except.bind, pure, Except.pure, List.getLast?]

/-- Claim C4 (code bug): with keyframes at times 0, 5 and 10, evaluating at
the interior keyframe's exact time 5: the one-shot `eKeys.animate` form
returns that key's value 50 exactly through its `time === curKey.keyTime`
branch without touching the easing solver, but the `AnimGroup` form (which
has no exact-hit branch) returns `undefined` via the `curKey.value`
shortcut, not the keyframe's value. -/
theorem exact_hit_oneshot_vs_animgroup :
    EKeys.animate none
        [⟨some (.num 0), some (.num 0), none, none, none, none, []⟩,
         ⟨some (.num 5), some (.num 50), none, none, none, none, []⟩,
         ⟨some (.num 10), some (.num 100), none, none, none, none, []⟩] 5
      = .ok (.num 50) ∧
    AnimGroup.anim
        [⟨some (.num 0), some (.num 0), none, none, none, none, []⟩,
         ⟨some (.num 5), some (.num 50), none, none, none, none, []⟩,
         ⟨some (.num 10), some (.num 100), none, none, none, none, []⟩] 5
      = .ok none := by
  constructor <;>
  norm_num [EKeys.animate, EKeys.validateAll, EKeys.validateKeyframe, sortKeys, insertKey,
    EKeys.animateBetweenKeys, scanKeyNum, EKeys.strictEq, jsMin, jsMax, isNum, isArr,
    AnimGroup.anim, AnimGroup.validateAll, AnimGroup.validateKeyframe,
    AnimGroup.animateBetweenKeys, AnimGroup.Keyframe.valueProp,
    bind, Except.bind, pure, Except.pure, List.getLast?]

/-- Claim C5 counterexample: in the `AnimGroup` form, bracketing keyframes
holding vectors of lengths 2 and 3 evaluated at the interior time 5 raise
no error at all — the evaluation returns `undefined` (this source has no
dimension check, and its `value`-shortcut returns before any
interpolation). -/
theorem dimension_mismatch_animgroup_counterexample :
    AnimGroup.anim
        [⟨some (.num 0), some (.arr [0, 0]), none, none, none, none, []⟩,
         ⟨some (.num 10), some (.arr [0, 0, 0]), none, none, none, none, []⟩] 5
      = .ok none := by
  norm_num [AnimGroup.anim, AnimGroup.validateAll, AnimGroup.validateKeyframe,
    sortKeys, insertKey, AnimGroup.animateBetweenKeys, scanKeyNum,
    AnimGroup.Keyframe.valueProp, isNum, isArr,
    bind, Except.bind, pure, Except.pure, List.getLast?]

/-- Claim C5 (corrected): in the one-shot `eKeys.animate` form, when the
locator's bracketing keyframes hold vectors of unequal length and the query
time falls strictly inside the animated range away from the current key's
time, with the current segment's easing handles in range, the evaluation
throws the same-dimension error naming the segment index and both lengths,
and returns no vector. -/
theorem dimension_mismatch_oneshot (k0 : Keyframe) (rest : List Keyframe) (t : ℚ)
    (xs ys : List ℚ) (ck nk : Keyframe)
    (hfirst : k0.keyTime < t)
    (hlast : t < ((k0 :: rest).getLastD k0).keyTime)
    (hck : (k0 :: rest).get? (scanKeyNum (k0 :: rest) t) = some ck)
    (hnk : (k0 :: rest).get? (scanKeyNum (k0 :: rest) t + 1) = some nk)
    (hxs : ck.keyValue = .arr xs) (hys : nk.keyValue = .arr ys)
    (hdim : xs.length ≠ ys.length)
    (hne : t ≠ ck.keyTime)
    (hr1 : 0 ≤ ck.easeOut / 100) (hr2 : ck.easeOut / 100 ≤ 1)
    (hr3 : 0 ≤ 1 - nk.easeIn / 100) (hr4 : 1 - nk.easeIn / 100 ≤ 1) :
    EKeys.animateBetweenKeys none (k0 :: rest) t
      = .error (EKeys.dimensionMessage (scanKeyNum (k0 :: rest) t)
          xs.length ys.length) := by
  simp only [EKeys.animateBetweenKeys]
  rw [if_neg (not_le.mpr hfirst), if_neg (not_le.mpr hlast)]
  rw [hck, hnk]
  simp only [EKeys.strictEq, hxs, hys, Bool.false_eq_true, if_false]
  rw [if_neg hne]
  unfold bezier
  rw [if_neg (not_not_intro ⟨hr1, hr2, hr3, hr4⟩)]
  by_cases hdeg : ck.easeOut / 100 = ck.velocityOut / 100 ∧
      1 - nk.easeIn / 100 = 1 - nk.velocityIn / 100
  · rw [if_pos hdeg]
    simp only [EKeys.animateArrayFromProgress]
    rw [if_pos hdim]
  · rw [if_neg hdeg]
    simp only [EKeys.animateArrayFromProgress]
    rw [if_pos hdim]

/-- Witness for `dimension_mismatch_oneshot`: vectors of lengths 2 and 3 at
times 0 and 10, queried at 5, with the default easing handles. -/
theorem dimension_mismatch_oneshot_witness :
    EKeys.animateBetweenKeys none
        [⟨0, .arr [0, 0], 33, 33, 0, 0⟩, ⟨10, .arr [0, 0, 0], 33, 33, 0, 0⟩] 5
      = .error "Keyframe 0 and 1 values must be of the same dimension. Received 2 and 3" := by
  have h := dimension_mismatch_oneshot ⟨0, .arr [0, 0], 33, 33, 0, 0⟩
    [⟨10, .arr [0, 0, 0], 33, 33, 0, 0⟩] 5 [0, 0] [0, 0, 0]
    ⟨0, .arr [0, 0], 33, 33, 0, 0⟩ ⟨10, .arr [0, 0, 0], 33, 33, 0, 0⟩
    (by decide) (by decide) (by decide) (by decide) rfl rfl (by decide) (by decide)
    (by norm_num) (by norm_num) (by norm_num) (by norm_num)
  rw [h]
  decide

/-- Claim C6 counterexample: in the `AnimGroup` form, a scalar keyframe
bracketed with a vector keyframe evaluated at the interior time 5 raises no
error and coerces nothing — the evaluation returns `undefined` via the
`value`-shortcut before any shape check. -/
theorem type_mismatch_animgroup_counterexample :
    AnimGroup.anim
        [⟨some (.num 0), some (.num 5), none, none, none, none, []⟩,
         ⟨some (.num 10), some (.arr [1, 2]), none, none, none, none, []⟩] 5
      = .ok none := by
  norm_num [AnimGroup.anim, AnimGroup.validateAll, AnimGroup.validateKeyframe,
    sortKeys, insertKey, AnimGroup.animateBetweenKeys, scanKeyNum,
    AnimGroup.Keyframe.valueProp, isNum, isArr,
    bind, Except.bind, pure, Except.pure, List.getLast?]

/-- Claim C6 (corrected): in the one-shot `eKeys.animate` form, when one
bracketing keyframe holds a scalar and the other a vector and the query
time falls strictly inside the animated range away from the current key's
time, with the current segment's easing handles in range, the evaluation
throws the same-type error naming the segment index and both observed
types, coercing neither value. -/
theorem type_mismatch_oneshot (k0 : Keyframe) (rest : List Keyframe) (t : ℚ)
    (ck nk : Keyframe)
    (hfirst : k0.keyTime < t)
    (hlast : t < ((k0 :: rest).getLastD k0).keyTime)
    (hck : (k0 :: rest).get? (scanKeyNum (k0 :: rest) t) = some ck)
    (hnk : (k0 :: rest).get? (scanKeyNum (k0 :: rest) t + 1) = some nk)
    (hmix : (∃ a ys, ck.keyValue = .num a ∧ nk.keyValue = .arr ys) ∨
            (∃ xs b, ck.keyValue = .arr xs ∧ nk.keyValue = .num b))
    (hne : t ≠ ck.keyTime)
    (hr1 : 0 ≤ ck.easeOut / 100) (hr2 : ck.easeOut / 100 ≤ 1)
    (hr3 : 0 ≤ 1 - nk.easeIn / 100) (hr4 : 1 - nk.easeIn / 100 ≤ 1) :
    EKeys.animateBetweenKeys none (k0 :: rest) t
      = .error (EKeys.sameTypeMessage (scanKeyNum (k0 :: rest) t)
          ck.keyValue nk.keyValue) := by
  obtain ⟨a, ys, hxs, hys⟩ | ⟨xs, b, hxs, hys⟩ := hmix <;>
  · simp only [EKeys.animateBetweenKeys]
    rw [if_neg (not_le.mpr hfirst), if_neg (not_le.mpr hlast)]
    rw [hck, hnk]
    simp only [EKeys.strictEq, hxs, hys, Bool.false_eq_true, if_false]
    rw [if_neg hne]
    unfold bezier
    rw [if_neg (not_not_intro ⟨hr1, hr2, hr3, hr4⟩)]
    by_cases hdeg : ck.easeOut / 100 = ck.velocityOut / 100 ∧
        1 - nk.easeIn / 100 = 1 - nk.velocityIn / 100
    · rw [if_pos hdeg]
    · rw [if_neg hdeg]

/-- Witness for `type_mismatch_oneshot`: a scalar 5 bracketed with the
vector [1, 2] at times 0 and 10, queried at 5, with default easing. -/
theorem type_mismatch_oneshot_witness :
    EKeys.animateBetweenKeys none
        [⟨0, .num 5, 33, 33, 0, 0⟩, ⟨10, .arr [1, 2], 33, 33, 0, 0⟩] 5
      = .error "Keyframe 0 and 1 values must be of the same type. Received number and array" := by
  have h := type_mismatch_oneshot ⟨0, .num 5, 33, 33, 0, 0⟩
    [⟨10, .arr [1, 2], 33, 33, 0, 0⟩] 5
    ⟨0, .num 5, 33, 33, 0, 0⟩ ⟨10, .arr [1, 2], 33, 33, 0, 0⟩
    (by decide) (by decide) (by decide) (by decide)
    (Or.inl ⟨5, [1, 2], rfl, rfl⟩) (by decide)
    (by norm_num) (by norm_num) (by norm_num) (by norm_num)
  rw [h]
  decide
